import Mathlib

/-!
Shallow embedding of the SteamID library (src/SteamID.ts), a TypeScript
port of SteamID.php.  The packed identifier is a JS BigInt that is
nonnegative in every reachable state of this program, so it is modelled
as a natural number.  JS Number values appearing during parsing are
integers below 2 ^ 53 at every call site and are modelled exactly, with
one exception: the legacy-branch expression `(accountID << 1) | authServer`
uses the 32-bit integer semantics of the JS shift and or operators, which
is modelled explicitly by `toInt32`.  A method that can `throw` is
modelled as returning `Except String` with the thrown message.
-/

namespace SteamIDTS

/-- The BigInt expression `a & ~m` for nonnegative `a` and `m`, as used by
`set`: it clears in `a` every bit of `m`.  On bit `i` the two's-complement
value is `a.testBit i && !(m.testBit i)`, which on naturals equals
`a ^^^ (a &&& m)`. -/
def andNot (a m : ℕ) : ℕ := a ^^^ (a &&& m)

/-- `get(bitOffset, valueMask)`: `(this.data >> bitOffset) & valueMask`. -/
def get (data bitOffset valueMask : ℕ) : ℕ := (data >>> bitOffset) &&& valueMask

/-- `set(bitOffset, valueMask, value)` recomputes the packed value as
`(this.data & ~(valMask << bOffset)) | ((val & valMask) << bOffset)`. -/
def set (data bitOffset valueMask value : ℕ) : ℕ :=
  andNot data (valueMask <<< bitOffset) ||| ((value &&& valueMask) <<< bitOffset)

/-- `getAccountID()`: `this.get(0, "4294967295")`. -/
def getAccountID (data : ℕ) : ℕ := get data 0 4294967295

/-- `getAccountInstance()`: `this.get(32, 1048575)`. -/
def getAccountInstance (data : ℕ) : ℕ := get data 32 1048575

/-- `getAccountType()`: `this.get(52, 15)`. -/
def getAccountType (data : ℕ) : ℕ := get data 52 15

/-- `getAccountUniverse()`: `this.get(56, 255)`. -/
def getAccountUniverse (data : ℕ) : ℕ := get data 56 255

/-- `setAccountID(value)`: rejects `BigInt(value) < 0 || BigInt(value) > 0xFFFFFFFF`,
otherwise `this.set(0, 4294967295n, value)`. -/
def setAccountID (data : ℕ) (value : ℤ) : Except String ℕ :=
  if value < 0 ∨ value > 4294967295 then
    .error "Account id can not be higher than 0xFFFFFFFF."
  else .ok (set data 0 4294967295 value.toNat)

/-- `setAccountInstance(value)`: rejects `BigInt(value) < 0 || BigInt(value) > 0xFFFF`
(the bound in the code is 0xFFFF = 65535, though the mask then applied by
`this.set(32, 1048575n, value)` is 1048575 = 0xFFFFF). -/
def setAccountInstance (data : ℕ) (value : ℤ) : Except String ℕ :=
  if value < 0 ∨ value > 65535 then
    .error "Account instance can not be higher than 0xFFFF."
  else .ok (set data 32 1048575 value.toNat)

/-- `setAccountType(value)`: rejects `BigInt(value) < 0 || BigInt(value) > 0xF`,
otherwise `this.set(52, 15n, value)`. -/
def setAccountType (data : ℕ) (value : ℤ) : Except String ℕ :=
  if value < 0 ∨ value > 15 then
    .error "Account type can not be higher than 0xF."
  else .ok (set data 52 15 value.toNat)

/-- `setAccountUniverse(value)`: rejects `BigInt(value) < 0 || BigInt(value) > 0xFF`,
otherwise `this.set(56, 255n, value)`. -/
def setAccountUniverse (data : ℕ) (value : ℤ) : Except String ℕ :=
  if value < 0 ∨ value > 255 then
    .error "Account universe can not be higher than 0xFF."
  else .ok (set data 56 255 value.toNat)

/-- `isValid()` of the packed value. -/
def isValid (data : ℕ) : Bool :=
  let accountType := getAccountType data
  if accountType ≤ 0 ∨ accountType > 10 then false
  else
    let accountUniverse := getAccountUniverse data
    if accountUniverse ≤ 0 ∨ accountUniverse > 4 then false
    else
      let accountID := getAccountID data
      let accountInstance := getAccountInstance data
      if accountType = 1 ∧ (accountID = 0 ∨ accountInstance ≠ 0) then false
      else if accountType = 7 ∧ (accountID = 0 ∨ accountInstance ≠ 0) then false
      else if accountType = 3 ∧ accountID = 0 then false
      else true

/-- Decimal digit list with explicit fuel; `fuel` larger than `n` suffices. -/
def decDigitsAux : ℕ → ℕ → List Char
  | 0, _ => []
  | fuel + 1, n =>
    if n < 10 then [Char.ofNat (48 + n)]
    else decDigitsAux fuel (n / 10) ++ [Char.ofNat (48 + n % 10)]

/-- Decimal digit list of a natural number, most significant digit first.
Models the JS conversions `String(bigint)` and template-literal
interpolation of a nonnegative Number or BigInt. -/
def decDigits (n : ℕ) : List Char := decDigitsAux (n + 1) n

/-- Decimal rendering of a nonnegative integer as a JS string. -/
def natToString (n : ℕ) : String := String.mk (decDigits n)

/-- Lowercase hexadecimal digit character of `n < 16`. -/
def hexChar (n : ℕ) : Char :=
  if n < 10 then Char.ofNat (48 + n) else Char.ofNat (87 + n)

/-- Hexadecimal digit list with explicit fuel; `fuel` larger than `n` suffices. -/
def hexDigitsAux : ℕ → ℕ → List Char
  | 0, _ => []
  | fuel + 1, n =>
    if n < 16 then [hexChar n]
    else hexDigitsAux fuel (n / 16) ++ [hexChar (n % 16)]

/-- Lowercase unpadded hexadecimal digit list of a natural number, most
significant digit first; models the JS `BigInt.prototype.toString(16)`. -/
def hexDigits (n : ℕ) : List Char := hexDigitsAux (n + 1) n

/-- One case of the `switch` in the helper `replace`: the substituted text
appended for one character (characters without a case append nothing). -/
def replaceChar (c : Char) : String :=
  match c with
  | '0' => "b"
  | '1' => "c"
  | '2' => "d"
  | '3' => "f"
  | '4' => "g"
  | '5' => "h"
  | '6' => "j"
  | '7' => "k"
  | '8' => "m"
  | '9' => "n"
  | 'a' => "p"
  | 'b' => "q"
  | 'c' => "e"
  | 'd' => "t"
  | 'e' => "v"
  | 'f' => "w"
  | _ => ""

/-- The helper `replace(str)`: concatenates `replaceChar` over the
characters of the input. -/
def replace : List Char → List Char
  | [] => []
  | c :: rest => (replaceChar c).toList ++ replace rest

/-- `accountTypeChars`, the type-code to character table. -/
def accountTypeChars : List String :=
  ["I", "U", "M", "G", "A", "P", "C", "g", "T", "", "a"]

/-- `renderSteam2()`. -/
def renderSteam2 (data : ℕ) : String :=
  let t := getAccountType data
  if t = 0 ∨ t = 1 then
    let uni := getAccountUniverse data
    let accountID := getAccountID data
    "STEAM_" ++ natToString uni ++ ":" ++ natToString (accountID &&& 1) ++
      ":" ++ natToString (accountID >>> 1)
  else natToString data

/-- `renderSteam3()`. -/
def renderSteam3 (data : ℕ) : String :=
  let accountInstance := getAccountInstance data
  let accountType := getAccountType data
  let accountTypeChar := (accountTypeChars.get? accountType).getD "i"
  let accountTypeChar :=
    if accountType = 8 then
      if accountInstance &&& 524288 ≠ 0 then "c"
      else if accountInstance &&& 262144 ≠ 0 then "L"
      else accountTypeChar
    else accountTypeChar
  let renderInstance := accountType == 4 || accountType == 2
  let ret := "[" ++ accountTypeChar ++ ":" ++ natToString (getAccountUniverse data) ++
    ":" ++ natToString (getAccountID data)
  let ret := if renderInstance then ret ++ ":" ++ natToString accountInstance else ret
  ret ++ "]"

/-- `renderSteamInvite()`: the JS `substring` offset `length / 2` is a float
whose truncation by `substring` equals natural division by 2. -/
def renderSteamInvite (data : ℕ) : Except String String :=
  let t := getAccountType data
  if t = 0 ∨ t = 1 then
    let code := replace (hexDigits (getAccountID data))
    let length := code.length
    .ok (String.mk
      (if length > 3 then code.take (length / 2) ++ '-' :: code.drop (length / 2)
       else code))
  else .error "This can only be used on individual SteamID."

/-- Decimal digit character test, the class `[0-9]` (code points 48 to 57). -/
def isDigitChar (c : Char) : Bool := decide (48 ≤ c.toNat) && decide (c.toNat ≤ 57)

/-- Value of a digit list read in base 10 (JS `Number` or `BigInt` of a
digit string; every use site stays below 2 ^ 53 or is a BigInt). -/
def natOfDigits (cs : List Char) : ℕ :=
  cs.foldl (fun acc c => 10 * acc + (c.toNat - 48)) 0

/-- `isNumeric(n)` for a string argument: the regular expression
`^[1-9][0-9]{0,19}$`. -/
def isNumericStr (s : String) : Bool :=
  match s.toList with
  | [] => false
  | c :: rest =>
    decide (49 ≤ c.toNat) && decide (c.toNat ≤ 57) && decide (rest.length ≤ 19) &&
      rest.all isDigitChar

/-- The capture group `0|[1-9][0-9]{0,9}` of both textual grammars. -/
def matchesIdGroup (cs : List Char) : Bool :=
  match cs with
  | ['0'] => true
  | c :: rest =>
    decide ('1' ≤ c) && decide (c ≤ '9') && decide (rest.length ≤ 9) &&
      rest.all isDigitChar
  | [] => false

/-- Match against the legacy regular expression
`^STEAM_([0-4]):([0-1]):(0|[1-9][0-9]{0,9})$`, returning the capture
groups (universe digit, authServer digit, id value). -/
def matchSteam2 (s : String) : Option (ℕ × ℕ × ℕ) :=
  match s.toList with
  | 'S' :: 'T' :: 'E' :: 'A' :: 'M' :: '_' :: u :: ':' :: a :: ':' :: rest =>
    if decide ('0' ≤ u) && decide (u ≤ '4') && (a == '0' || a == '1') &&
        matchesIdGroup rest then
      some (u.toNat - 48, a.toNat - 48, natOfDigits rest)
    else none
  | _ => none

/-- The character class `[AGMPCgcLTIUai]` of the bracketed grammar. -/
def typeCharClass : List Char :=
  ['A', 'G', 'M', 'P', 'C', 'g', 'c', 'L', 'T', 'I', 'U', 'a', 'i']

/-- Split a character list at its first colon, returning the part before it
and, when a colon is present, the part after it. -/
def splitColon : List Char → List Char × Option (List Char)
  | [] => ([], none)
  | ':' :: rest => ([], some rest)
  | c :: rest =>
    let p := splitColon rest
    (c :: p.1, p.2)

/-- Match against the bracketed (Steam3) regular expression
`^\[([AGMPCgcLTIUai]):([0-4]):(0|[1-9][0-9]{0,9})(?::([0-9]+))?\]$`,
returning the capture groups (type character, universe digit, id value,
optional instance value). -/
def matchSteam3 (s : String) : Option (Char × ℕ × ℕ × Option ℕ) :=
  match s.toList with
  | '[' :: t :: ':' :: u :: ':' :: rest =>
    if typeCharClass.contains t && decide ('0' ≤ u) && decide (u ≤ '4') &&
        rest.getLast? == some ']' then
      let p := splitColon rest.dropLast
      if matchesIdGroup p.1 then
        match p.2 with
        | none => some (t, u.toNat - 48, natOfDigits p.1, none)
        | some inst =>
          if !inst.isEmpty && inst.all isDigitChar then
            some (t, u.toNat - 48, natOfDigits p.1, some (natOfDigits inst))
          else none
      else none
    else none
  | _ => none

/-- JS `ToInt32`: reinterpret the low 32 bits as a signed 32-bit integer. -/
def toInt32 (n : ℕ) : ℤ :=
  let m := n % 4294967296
  if m < 2147483648 then (m : ℤ) else (m : ℤ) - 4294967296

/-- The legacy-branch recombination `(accountID << 1) | authServer`:
`accountID` and `authServer` are JS Numbers, so `<<` and `|` convert their
operands to 32-bit integers and yield a signed 32-bit result. -/
def jsRecombine (accountID authServer : ℕ) : ℤ :=
  toInt32 (accountID % 4294967296 * 2 % 4294967296 ||| authServer % 4294967296)

/-- `array_search(needle, haystack)`: index of the first match, `-1` when
absent. -/
def array_search (needle : String) (haystack : List String) : ℤ :=
  match haystack.findIdx? (fun e => e == needle) with
  | some i => (i : ℤ)
  | none => -1

/-- The effective type character of the bracketed branch: lowercase `i` is
replaced by uppercase `I` before any further use. -/
def steam3TypeChar (t0 : Char) : Char := if t0 = 'i' then 'I' else t0

/-- The instance resolution of the bracketed branch, prior to the `c` and
`L` overrides: type `T` or `g` forces AllInstances (0); otherwise an
explicit instance capture group wins; otherwise type `U` gets the Desktop
instance (1) and every other type gets AllInstances (0). -/
def steam3InstanceID (t : Char) (instGroup : Option ℕ) : ℕ :=
  if t = 'T' ∨ t = 'g' then 0
  else
    match instGroup with
    | some i => i
    | none => if t = 'U' then 1 else 0

/-- The common tail of the bracketed-grammar branch: the source-order calls
`setAccountUniverse`, `setAccountInstance`, `setAccountID`, starting from
the packed value `d0` left by the type-setting step. -/
def parseSteam3Tail (d0 instanceID uni accountID : ℕ) : Except String ℕ := do
  let d ← setAccountUniverse d0 (uni : ℤ)
  let d ← setAccountInstance d (instanceID : ℤ)
  setAccountID d (accountID : ℤ)

/-- The bracketed-grammar branch of the constructor, applied to the capture
groups of `matchSteam3`.  For all type characters other than `c` and `L`
the account type is set first (from the table lookup); then universe,
instance and account id are set in that order. -/
def parseSteam3Groups (t0 : Char) (uni accountID : ℕ) (instGroup : Option ℕ) :
    Except String ℕ :=
  if accountID ≥ 4294967295 then
    .error "Provide steamID exceeds max unsigned 32-bit integer."
  else if steam3TypeChar t0 = 'c' then parseSteam3Tail 0 524288 uni accountID
  else if steam3TypeChar t0 = 'L' then parseSteam3Tail 0 524288 uni accountID
  else do
    let d ← setAccountType 0
      (array_search (String.mk [steam3TypeChar t0]) accountTypeChars)
    parseSteam3Tail d (steam3InstanceID (steam3TypeChar t0) instGroup) uni accountID

/-- The constructor applied to a string input: the legacy grammar is tried
first, then the bracketed grammar, then the plain-numeric check.  Returns
the final packed value or the thrown error message. -/
def parseSteamID (s : String) : Except String ℕ :=
  match matchSteam2 s with
  | some g =>
    if g.2.2 ≥ 4294967295 then
      .error "Provide steamID exceeds max unsigned 32-bit integer."
    else
      let uni := if g.1 = 0 then 1 else g.1
      let accountID := jsRecombine g.2.2 g.2.1
      do
        let d ← setAccountUniverse 0 (uni : ℤ)
        let d ← setAccountInstance d 1
        let d ← setAccountType d 1
        setAccountID d accountID
  | none =>
    match matchSteam3 s with
    | some g => parseSteam3Groups g.1 g.2.1 g.2.2.1 g.2.2.2
    | none =>
      if isNumericStr s then .ok (natOfDigits s.toList)
      else .error "Provided SteamID is invalid."

/-- The constructor applied to a number or bigint input: the decimal text of
an integer matches neither textual grammar, so only the numeric check
`n > 0` applies; on success the value itself becomes the packed value. -/
def parseSteamIDNum (value : ℤ) : Except String ℕ :=
  if value > 0 then .ok value.toNat else .error "Provided SteamID is invalid."

/-- `setFromUInt64(value)` for a string argument. -/
def setFromUInt64Str (data : ℕ) (value : String) : Except String ℕ :=
  if isNumericStr value then .ok (natOfDigits value.toList)
  else .error "Provided SteamID is not numeric."

/-- `setFromUInt64(value)` for a number or bigint argument. -/
def setFromUInt64Num (data : ℕ) (value : ℤ) : Except String ℕ :=
  if value > 0 then .ok value.toNat
  else .error "Provided SteamID is not numeric."

/-- `convertToUInt64()`: `String(this.data)`. -/
def convertToUInt64 (data : ℕ) : String := natToString data

/-- `new SteamID()` with no argument: the packed value stays zero. -/
def emptySteamID : ℕ := 0

/-- The invite-code substitution table exactly as the specification states
it (0 to b, 1 to c, 2 to d, 3 to f, 4 to g, 5 to h, 6 to j, 7 to k, 8 to m,
9 to n, a to p, b to q, c to e, d to t, e to v, f to w), as a character map
over the hexadecimal alphabet; characters outside it are left unchanged. -/
def inviteTableSpec (c : Char) : Char :=
  match c with
  | '0' => 'b'
  | '1' => 'c'
  | '2' => 'd'
  | '3' => 'f'
  | '4' => 'g'
  | '5' => 'h'
  | '6' => 'j'
  | '7' => 'k'
  | '8' => 'm'
  | '9' => 'n'
  | 'a' => 'p'
  | 'b' => 'q'
  | 'c' => 'e'
  | 'd' => 't'
  | 'e' => 'v'
  | 'f' => 'w'
  | _ => c

/-- The invite code of an account number as the specification describes it:
the lowercase unpadded hexadecimal digits, each replaced through the fixed
substitution table, with a single hyphen inserted after position
length / 2 (floor) when the substituted length exceeds 3, and no hyphen
otherwise. -/
def inviteCodeSpec (n : ℕ) : String :=
  let subst := (hexDigits n).map inviteTableSpec
  if subst.length > 3 then
    String.mk (subst.take (subst.length / 2) ++ '-' :: subst.drop (subst.length / 2))
  else String.mk subst

end SteamIDTS

namespace SteamIDTS

lemma testBit_andNot (a m i : ℕ) :
    (andNot a m).testBit i = (a.testBit i && !(m.testBit i)) := by
  simp only [andNot, Nat.testBit_xor, Nat.testBit_land]
  cases a.testBit i <;> cases m.testBit i <;> rfl

lemma testBit_set (data off k v i : ℕ) :
    (set data off (2 ^ k - 1) v).testBit i =
      if off ≤ i ∧ i < off + k then v.testBit (i - off) else data.testBit i := by
  simp only [set, Nat.testBit_lor, testBit_andNot, Nat.testBit_shiftLeft,
    Nat.testBit_land, Nat.testBit_two_pow_sub_one]
  by_cases h1 : off ≤ i
  · by_cases h2 : i - off < k
    · rw [if_pos ⟨h1, by omega⟩]
      simp [h1, h2]
    · rw [if_neg (by omega)]
      simp [h1, h2]
  · rw [if_neg (by omega)]
    simp [h1]

lemma get_set_disjoint (data v o1 k1 o2 k2 : ℕ)
    (h : o1 + k1 ≤ o2 ∨ o2 + k2 ≤ o1) :
    get (set data o1 (2 ^ k1 - 1) v) o2 (2 ^ k2 - 1) = get data o2 (2 ^ k2 - 1) := by
  unfold get
  refine Nat.eq_of_testBit_eq fun i => ?_
  simp only [Nat.testBit_land, Nat.testBit_shiftRight, testBit_set,
    Nat.testBit_two_pow_sub_one]
  by_cases h2 : i < k2
  · rw [if_neg (by omega)]
  · simp [h2]

lemma set_lt (data v o k : ℕ) (ho : o + k ≤ 64) (hd : data < 2 ^ 64) :
    set data o (2 ^ k - 1) v < 2 ^ 64 := by
  apply Nat.lt_pow_two_of_testBit
  intro i hi
  rw [testBit_set, if_neg (by omega)]
  exact Nat.testBit_lt_two_pow
    (lt_of_lt_of_le hd (Nat.pow_le_pow_right (by norm_num) hi))

lemma mask32 : (4294967295 : ℕ) = 2 ^ 32 - 1 := by norm_num

lemma mask20 : (1048575 : ℕ) = 2 ^ 20 - 1 := by norm_num

lemma mask4 : (15 : ℕ) = 2 ^ 4 - 1 := by norm_num

lemma mask8 : (255 : ℕ) = 2 ^ 8 - 1 := by norm_num

lemma foldl_digits_lt (cs : List Char) : ∀ acc : ℕ, (∀ c ∈ cs, c.toNat ≤ 57) →
    List.foldl (fun acc c => 10 * acc + (c.toNat - 48)) acc cs <
      (acc + 1) * 10 ^ cs.length := by
  induction cs with
  | nil =>
    intro acc _
    simpa using Nat.lt_succ_self acc
  | cons c rest ih =>
    intro acc h
    have hc : c.toNat - 48 ≤ 9 := by
      have := h c (by simp)
      omega
    have hrec := ih (10 * acc + (c.toNat - 48)) (fun x hx => h x (by simp [hx]))
    calc List.foldl (fun acc c => 10 * acc + (c.toNat - 48))
          (10 * acc + (c.toNat - 48)) rest
        < (10 * acc + (c.toNat - 48) + 1) * 10 ^ rest.length := hrec
      _ ≤ ((acc + 1) * 10) * 10 ^ rest.length :=
          Nat.mul_le_mul_right _ (by omega)
      _ = (acc + 1) * 10 ^ (rest.length + 1) := by ring

lemma natOfDigits_lt (cs : List Char) (h : ∀ c ∈ cs, c.toNat ≤ 57) :
    natOfDigits cs < 10 ^ cs.length := by
  have := foldl_digits_lt cs 0 h
  simpa [natOfDigits] using this

lemma isNumeric_digits_le (s : String) (h : isNumericStr s = true) :
    ∀ c ∈ s.toList, c.toNat ≤ 57 := by
  unfold isNumericStr at h
  intro c hc
  cases hs : s.toList with
  | nil =>
    rw [hs] at hc
    simp at hc
  | cons c0 rest =>
    rw [hs] at h hc
    simp only [Bool.and_eq_true, decide_eq_true_eq, List.all_eq_true] at h
    simp only [List.mem_cons] at hc
    rcases hc with rfl | hc
    · exact h.1.1.2
    · have := h.2 c hc
      simp only [isDigitChar, Bool.and_eq_true, decide_eq_true_eq] at this
      exact this.2

end SteamIDTS

namespace SteamIDTS

lemma except_bind_ok {α β : Type} (e : Except String α) (f : α → Except String β)
    (b : β) (h : (e >>= f) = .ok b) : ∃ a, e = .ok a ∧ f a = .ok b := by
  cases e with
  | error err => simp [Bind.bind, Except.bind] at h
  | ok a =>
    refine ⟨a, rfl, ?_⟩
    simpa [Bind.bind, Except.bind] using h

lemma setAccountID_lt (data : ℕ) (v : ℤ) (d : ℕ) (hd : data < 2 ^ 64)
    (h : setAccountID data v = .ok d) : d < 2 ^ 64 := by
  unfold setAccountID at h
  split at h
  · exact absurd h (by simp)
  · simp only [Except.ok.injEq] at h
    subst h
    rw [mask32]
    exact set_lt _ _ _ _ (by omega) hd

lemma setAccountInstance_lt (data : ℕ) (v : ℤ) (d : ℕ) (hd : data < 2 ^ 64)
    (h : setAccountInstance data v = .ok d) : d < 2 ^ 64 := by
  unfold setAccountInstance at h
  split at h
  · exact absurd h (by simp)
  · simp only [Except.ok.injEq] at h
    subst h
    rw [mask20]
    exact set_lt _ _ _ _ (by omega) hd

lemma setAccountType_lt (data : ℕ) (v : ℤ) (d : ℕ) (hd : data < 2 ^ 64)
    (h : setAccountType data v = .ok d) : d < 2 ^ 64 := by
  unfold setAccountType at h
  split at h
  · exact absurd h (by simp)
  · simp only [Except.ok.injEq] at h
    subst h
    rw [mask4]
    exact set_lt _ _ _ _ (by omega) hd

lemma setAccountUniverse_lt (data : ℕ) (v : ℤ) (d : ℕ) (hd : data < 2 ^ 64)
    (h : setAccountUniverse data v = .ok d) : d < 2 ^ 64 := by
  unfold setAccountUniverse at h
  split at h
  · exact absurd h (by simp)
  · simp only [Except.ok.injEq] at h
    subst h
    rw [mask8]
    exact set_lt _ _ _ _ (by omega) hd

lemma parseSteam3Tail_lt (d0 instanceID uni accountID d : ℕ) (h0 : d0 < 2 ^ 64)
    (h : parseSteam3Tail d0 instanceID uni accountID = .ok d) : d < 2 ^ 64 := by
  unfold parseSteam3Tail at h
  obtain ⟨d1, hd1, h⟩ := except_bind_ok _ _ _ h
  obtain ⟨d2, hd2, h⟩ := except_bind_ok _ _ _ h
  exact setAccountID_lt _ _ _
    (setAccountInstance_lt _ _ _ (setAccountUniverse_lt _ _ _ h0 hd1) hd2) h

lemma parseSteam3Groups_lt (t0 : Char) (uni accountID : ℕ) (instGroup : Option ℕ)
    (d : ℕ) (h : parseSteam3Groups t0 uni accountID instGroup = .ok d) :
    d < 2 ^ 64 := by
  unfold parseSteam3Groups at h
  split at h
  · exact absurd h (by simp)
  · split at h
    · exact parseSteam3Tail_lt _ _ _ _ _ (by norm_num) h
    · split at h
      · exact parseSteam3Tail_lt _ _ _ _ _ (by norm_num) h
      · obtain ⟨d0, hd0, h⟩ := except_bind_ok _ _ _ h
        exact parseSteam3Tail_lt _ _ _ _ _
          (setAccountType_lt _ _ _ (by norm_num) hd0) h

lemma parseSteamID_lt (s : String) (d : ℕ) (h : parseSteamID s = .ok d)
    (hnum : isNumericStr s = false) : d < 2 ^ 64 := by
  unfold parseSteamID at h
  split at h
  · rename_i g heq
    split at h
    · exact absurd h (by simp)
    · obtain ⟨d1, hd1, h⟩ := except_bind_ok _ _ _ h
      obtain ⟨d2, hd2, h⟩ := except_bind_ok _ _ _ h
      obtain ⟨d3, hd3, h⟩ := except_bind_ok _ _ _ h
      exact setAccountID_lt _ _ _
        (setAccountType_lt _ _ _
          (setAccountInstance_lt _ _ _
            (setAccountUniverse_lt _ _ _ (by norm_num) hd1) hd2) hd3) h
  · split at h
    · exact parseSteam3Groups_lt _ _ _ _ _ h
    · rw [hnum] at h
      exact absurd h (by simp)

end SteamIDTS

namespace SteamIDTS

lemma hexDigitsAux_mem (fuel : ℕ) : ∀ n : ℕ, ∀ c ∈ hexDigitsAux fuel n,
    ∃ m, m < 16 ∧ c = hexChar m := by
  induction fuel with
  | zero =>
    intro n c hc
    simp [hexDigitsAux] at hc
  | succ fuel ih =>
    intro n c hc
    simp only [hexDigitsAux] at hc
    split at hc
    · rename_i hn
      simp only [List.mem_singleton] at hc
      exact ⟨n, hn, hc⟩
    · rcases List.mem_append.1 hc with hc | hc
      · exact ih (n / 16) c hc
      · simp only [List.mem_singleton] at hc
        exact ⟨n % 16, Nat.mod_lt _ (by norm_num), hc⟩

lemma hexDigits_mem (n : ℕ) : ∀ c ∈ hexDigits n, ∃ m, m < 16 ∧ c = hexChar m :=
  hexDigitsAux_mem (n + 1) n

lemma replaceChar_hexChar (m : ℕ) (hm : m < 16) :
    (replaceChar (hexChar m)).toList = [inviteTableSpec (hexChar m)] := by
  interval_cases m <;> rfl

lemma replace_eq_map (cs : List Char)
    (h : ∀ c ∈ cs, ∃ m, m < 16 ∧ c = hexChar m) :
    replace cs = cs.map inviteTableSpec := by
  induction cs with
  | nil => rfl
  | cons c rest ih =>
    obtain ⟨m, hm, rfl⟩ := h c (List.mem_cons_self c rest)
    simp only [replace, List.map_cons, replaceChar_hexChar m hm]
    rw [ih (fun x hx => h x (by simp [hx]))]
    rfl

end SteamIDTS

namespace SteamIDTS

lemma numeric_short_lt (s : String) (h : isNumericStr s = true)
    (hl : s.toList.length ≤ 19) : natOfDigits s.toList < 2 ^ 64 := by
  have h1 := natOfDigits_lt s.toList (isNumeric_digits_le s h)
  have h2 : (10 : ℕ) ^ s.toList.length ≤ 10 ^ 19 :=
    Nat.pow_le_pow_right (by norm_num) hl
  calc natOfDigits s.toList < 10 ^ s.toList.length := h1
    _ ≤ 10 ^ 19 := h2
    _ < 2 ^ 64 := by norm_num

/-- C1: the claim states that `setAccountInstance` accepts exactly the range
[0, 0xFFFFF]; the code instead accepts exactly [0, 0xFFFF] and rejects
every candidate in (0xFFFF, 0xFFFFF] — among them the Clan instance flag
0x80000 — with the instance OutOfRange error, although the width mask it
then applies is 0xFFFFF. -/
theorem C1_setAccountInstance_bound :
    (∀ (data : ℕ) (v : ℤ),
      (∃ d, setAccountInstance data v = .ok d) ↔ 0 ≤ v ∧ v ≤ 65535) ∧
    setAccountInstance 0 65536 =
      .error "Account instance can not be higher than 0xFFFF." ∧
    setAccountInstance 0 524288 =
      .error "Account instance can not be higher than 0xFFFF." ∧
    setAccountInstance 0 1048575 =
      .error "Account instance can not be higher than 0xFFFF." := by
  refine ⟨fun data v => ⟨fun ⟨d, hd⟩ => ?_, fun hv => ?_⟩, rfl, rfl, rfl⟩
  · unfold setAccountInstance at hd
    split at hd
    · cases hd
    · rename_i h
      push_neg at h
      omega
  · refine ⟨set data 32 1048575 v.toNat, ?_⟩
    unfold setAccountInstance
    rw [if_neg (by omega)]

/-- C1 witness: candidate 3 is accepted. -/
theorem C1_setAccountInstance_bound_witness :
    ∃ d, setAccountInstance 0 3 = .ok d :=
  (C1_setAccountInstance_bound.1 0 3).2 (by norm_num)

/-- C2: constructing from a bracketed string with type character `c` or `L`
does not succeed with instance 0x80000; it always throws, because the
constructor passes the Clan instance flag 524288 to `setAccountInstance`,
whose range check rejects everything above 0xFFFF. -/
theorem C2_clan_chat_construction_throws :
    parseSteamID "[c:1:4]" =
      .error "Account instance can not be higher than 0xFFFF." ∧
    parseSteamID "[c:1:4:7]" =
      .error "Account instance can not be higher than 0xFFFF." ∧
    parseSteamID "[L:1:4]" =
      .error "Account instance can not be higher than 0xFFFF." :=
  ⟨rfl, rfl, rfl⟩

/-- C3: `isValid` is false on the empty identifier as claimed, but it is
also false on the identifier built from the bracketed string `[U:1:1]`: the
constructor resolves the missing instance segment of a type-U input to the
Desktop instance 1, and the Individual branch of `isValid` requires the
instance to be exactly 0. -/
theorem C3_isValid_empty_and_U11 :
    isValid emptySteamID = false ∧
    parseSteamID "[U:1:1]" = .ok 76561197960265729 ∧
    getAccountID 76561197960265729 = 1 ∧
    getAccountType 76561197960265729 = 1 ∧
    getAccountUniverse 76561197960265729 = 1 ∧
    getAccountInstance 76561197960265729 = 1 ∧
    isValid 76561197960265729 = false :=
  ⟨rfl, rfl, rfl, rfl, rfl, rfl, rfl⟩

/-- C4: the legacy round trip fails for account numbers at and above 2^31:
the constructor computes `(accountID << 1) | authServer` with 32-bit JS
Number shift semantics, so the half-account 1073741824 becomes the negative
value -2147483648 and the account-id setter throws; just below the
boundary, and on a small input, the round trip holds. -/
theorem C4_legacy_roundtrip_boundary :
    parseSteamID "STEAM_1:0:1073741824" =
      .error "Account id can not be higher than 0xFFFFFFFF." ∧
    jsRecombine 1073741824 0 = -2147483648 ∧
    parseSteamID "STEAM_1:0:1073741823" = .ok 76561200107749374 ∧
    renderSteam2 76561200107749374 = "STEAM_1:0:1073741823" ∧
    parseSteamID "STEAM_4:1:2" = .ok 292733980074049541 ∧
    renderSteam2 292733980074049541 = "STEAM_4:1:2" :=
  ⟨rfl, rfl, rfl, rfl, rfl, rfl⟩

/-- C5 counterexample: the 20-digit string 18446744073709551616 (equal to
2^64) matches the plain-numeric expression, construction succeeds, and the
resulting packed value is not below 2^64. -/
theorem C5_counterexample :
    isNumericStr "18446744073709551616" = true ∧
    parseSteamID "18446744073709551616" = .ok 18446744073709551616 ∧
    ¬ (18446744073709551616 : ℕ) < 2 ^ 64 :=
  ⟨rfl, rfl, by norm_num⟩

/-- C5 (amended): every construction through the legacy or bracketed
grammar yields a packed value below 2^64; a numeric construction returns
the input itself, hence stays below 2^64 exactly when the input does; every
successful field setter preserves the bound; and plain-numeric strings of
at most 19 digits always stay below 2^64. -/
theorem C5_packed_value_bounds :
    (∀ s d, parseSteamID s = .ok d → isNumericStr s = false → d < 2 ^ 64) ∧
    (∀ v d, parseSteamIDNum v = .ok d → v < 2 ^ 64 → d < 2 ^ 64) ∧
    (∀ data v d, data < 2 ^ 64 →
      setAccountID data v = .ok d ∨ setAccountInstance data v = .ok d ∨
        setAccountType data v = .ok d ∨ setAccountUniverse data v = .ok d →
      d < 2 ^ 64) ∧
    (∀ data s d, setFromUInt64Str data s = .ok d → s.toList.length ≤ 19 →
      d < 2 ^ 64) ∧
    (∀ s, isNumericStr s = true → s.toList.length ≤ 19 →
      natOfDigits s.toList < 2 ^ 64) := by
  refine ⟨parseSteamID_lt, fun v d h hv => ?_, fun data v d hdata h => ?_,
    fun data s d h hl => ?_, numeric_short_lt⟩
  · unfold parseSteamIDNum at h
    split at h
    · simp only [Except.ok.injEq] at h
      omega
    · cases h
  · rcases h with h | h | h | h
    · exact setAccountID_lt _ _ _ hdata h
    · exact setAccountInstance_lt _ _ _ hdata h
    · exact setAccountType_lt _ _ _ hdata h
    · exact setAccountUniverse_lt _ _ _ hdata h
  · unfold setFromUInt64Str at h
    split at h
    · rename_i hnum
      simp only [Except.ok.injEq] at h
      subst h
      exact numeric_short_lt s hnum hl
    · cases h

/-- C5 witness: the amended bounds applied to concrete inputs. -/
theorem C5_packed_value_bounds_witness :
    (76561197960265729 : ℕ) < 2 ^ 64 ∧ (5 : ℕ) < 2 ^ 64 ∧
    (4294967296 : ℕ) < 2 ^ 64 ∧ (123 : ℕ) < 2 ^ 64 ∧
    natOfDigits ("123".toList) < 2 ^ 64 :=
  ⟨C5_packed_value_bounds.1 "[U:1:1]" 76561197960265729 rfl rfl,
   C5_packed_value_bounds.2.1 5 5 rfl (by norm_num),
   C5_packed_value_bounds.2.2.1 0 1 4294967296 (by norm_num) (Or.inr (Or.inl rfl)),
   C5_packed_value_bounds.2.2.2.1 0 "123" 123 rfl (by norm_num),
   C5_packed_value_bounds.2.2.2.2 "123" rfl (by norm_num)⟩

/-- C6 counterexample: calling the account-number setter with exactly
0xFFFFFFFF succeeds, while the claim states that it fails with the
OutOfRange error. -/
theorem C6_counterexample :
    setAccountID 0 4294967295 = .ok 4294967295 := rfl

/-- C6 (amended): the setter accepts 0xFFFFFFFF and 0xFFFFFFFE and rejects
exactly the candidates above 0xFFFFFFFF (and the negative ones). -/
theorem C6_setAccountID_bounds :
    (∀ data : ℕ, ∃ d, setAccountID data 4294967295 = .ok d) ∧
    (∀ data : ℕ, ∃ d, setAccountID data 4294967294 = .ok d) ∧
    (∀ (data : ℕ) (v : ℤ), v > 4294967295 →
      setAccountID data v = .error "Account id can not be higher than 0xFFFFFFFF.") := by
  refine ⟨fun data => ?_, fun data => ?_, fun data v hv => ?_⟩
  · exact ⟨set data 0 4294967295 ((4294967295 : ℤ)).toNat,
      by unfold setAccountID; rw [if_neg (by omega)]⟩
  · exact ⟨set data 0 4294967295 ((4294967294 : ℤ)).toNat,
      by unfold setAccountID; rw [if_neg (by omega)]⟩
  · unfold setAccountID
    rw [if_pos (by omega)]

/-- C6 witness: a candidate just above the mask is rejected. -/
theorem C6_setAccountID_bounds_witness :
    setAccountID 0 4294967296 =
      .error "Account id can not be higher than 0xFFFFFFFF." :=
  C6_setAccountID_bounds.2.2 0 4294967296 (by norm_num)

/-- C7: each of the four field setters, on success, leaves the getter
results of the other three fields unchanged, for every starting packed
value and candidate. -/
theorem C7_setters_frame (data : ℕ) (v : ℤ) :
    (∀ d, setAccountID data v = .ok d →
      getAccountInstance d = getAccountInstance data ∧
      getAccountType d = getAccountType data ∧
      getAccountUniverse d = getAccountUniverse data) ∧
    (∀ d, setAccountInstance data v = .ok d →
      getAccountID d = getAccountID data ∧
      getAccountType d = getAccountType data ∧
      getAccountUniverse d = getAccountUniverse data) ∧
    (∀ d, setAccountType data v = .ok d →
      getAccountID d = getAccountID data ∧
      getAccountInstance d = getAccountInstance data ∧
      getAccountUniverse d = getAccountUniverse data) ∧
    (∀ d, setAccountUniverse data v = .ok d →
      getAccountID d = getAccountID data ∧
      getAccountInstance d = getAccountInstance data ∧
      getAccountType d = getAccountType data) := by
  refine ⟨fun d hd => ?_, fun d hd => ?_, fun d hd => ?_, fun d hd => ?_⟩ <;>
    [unfold setAccountID at hd; unfold setAccountInstance at hd;
     unfold setAccountType at hd; unfold setAccountUniverse at hd] <;>
    split at hd <;> simp only [Except.ok.injEq, reduceCtorEq] at hd <;>
    subst hd <;>
    simp only [getAccountID, getAccountInstance, getAccountType,
      getAccountUniverse, mask32, mask20, mask4, mask8] <;>
    refine ⟨?_, ?_, ?_⟩ <;> exact get_set_disjoint _ _ _ _ _ _ (by omega)

/-- C7 witness: each setter applied to the empty value with candidate 1. -/
theorem C7_setters_frame_witness :
    (getAccountInstance 1 = getAccountInstance 0 ∧
      getAccountType 1 = getAccountType 0 ∧
      getAccountUniverse 1 = getAccountUniverse 0) ∧
    (getAccountID 4294967296 = getAccountID 0 ∧
      getAccountType 4294967296 = getAccountType 0 ∧
      getAccountUniverse 4294967296 = getAccountUniverse 0) ∧
    (getAccountID 4503599627370496 = getAccountID 0 ∧
      getAccountInstance 4503599627370496 = getAccountInstance 0 ∧
      getAccountUniverse 4503599627370496 = getAccountUniverse 0) ∧
    (getAccountID 72057594037927936 = getAccountID 0 ∧
      getAccountInstance 72057594037927936 = getAccountInstance 0 ∧
      getAccountType 72057594037927936 = getAccountType 0) :=
  ⟨(C7_setters_frame 0 1).1 1 rfl,
   (C7_setters_frame 0 1).2.1 4294967296 rfl,
   (C7_setters_frame 0 1).2.2.1 4503599627370496 rfl,
   (C7_setters_frame 0 1).2.2.2 72057594037927936 rfl⟩

/-- C8: on an identifier of account type Invalid or Individual, the
invite-code render returns exactly the substituted hexadecimal digits of
the account number with the midpoint hyphen rule of the specification; in
particular account number 78 (hex 4e) gives the 2-character code gv. -/
theorem C8_invite_code (data : ℕ)
    (h : getAccountType data = 0 ∨ getAccountType data = 1) :
    renderSteamInvite data = .ok (inviteCodeSpec (getAccountID data)) ∧
    renderSteamInvite 78 = .ok "gv" ∧ inviteCodeSpec 78 = "gv" := by
  refine ⟨?_, rfl, rfl⟩
  unfold renderSteamInvite inviteCodeSpec
  rw [if_pos h, replace_eq_map _ (hexDigits_mem _)]
  by_cases h3 : 3 < (hexDigits (getAccountID data)).length <;>
    simp [List.length_map, h3]

/-- C8 witness: the render of the all-zero identifier with account number
78 written into the low bits. -/
theorem C8_invite_code_witness :
    renderSteamInvite 78 = .ok (inviteCodeSpec (getAccountID 78)) ∧
    renderSteamInvite 78 = .ok "gv" ∧ inviteCodeSpec 78 = "gv" :=
  C8_invite_code 78 (Or.inl rfl)

/-- C9: the known reference identifier constructed from its plain numeric
string renders to the documented legacy and bracketed strings. -/
theorem C9_reference_renders :
    parseSteamID "76561197960287930" = .ok 76561197960287930 ∧
    renderSteam2 76561197960287930 = "STEAM_1:0:11101" ∧
    renderSteam3 76561197960287930 = "[U:1:22202]" :=
  ⟨rfl, rfl, rfl⟩

/-- C10: zero is rejected by every numeric entry point, although it is the
packed value of an identifier constructed with no input, so re-parsing the
numeric render of the empty identifier always fails. -/
theorem C10_zero_rejected :
    parseSteamID "0" = .error "Provided SteamID is invalid." ∧
    parseSteamIDNum 0 = .error "Provided SteamID is invalid." ∧
    setFromUInt64Num 0 0 = .error "Provided SteamID is not numeric." ∧
    setFromUInt64Str 0 "0" = .error "Provided SteamID is not numeric." ∧
    convertToUInt64 emptySteamID = "0" ∧
    parseSteamID (convertToUInt64 emptySteamID) =
      .error "Provided SteamID is invalid." :=
  ⟨rfl, rfl, rfl, rfl, rfl, rfl⟩

end SteamIDTS
